import Mathlib

/-!
Shallow embedding of the Coohom upload-orchestration core
(`src/coohom/coohom_api.py`, class `CoohomUploader`): the request signer,
the STS-credentials retry loop, the status poller and the safe-submit
orchestrator.  Remote HTTP traffic, wall-clock timestamps and the UI
(`streamlit`) calls are modelled as explicit oracle parameters; sleeps are
counted/recorded instead of performed.  Library digests (`hashlib.md5`) and
url-encoding (`urllib.parse.quote`) are opaque pure collaborators and appear
as function parameters.
-/

/-- A Python value as it can appear in a `status` slot of a status-check
response dict: `None`, an `int`, a `str`, or anything else (for which
`int(x)` raises `TypeError`).  Floats and bools do not occur in the
documented payloads and are folded into `pvOther`. -/
inductive PyVal
  | pvNone
  | pvInt (n : Int)
  | pvStr (s : String)
  | pvOther
deriving DecidableEq, Repr

/-- The `data` field of a status-check response, as probed by the extraction
code: a dict (`data.get ("status")` yields the carried value, `.pvNone`
when the key is absent or null), a non-empty list whose first element is a
dict (`data[0].get ("status")`), an empty list, or any other value.  A list
whose first element is not a dict would raise in Python and is outside the
shapes the code documents. -/
inductive DataField
  | dObj (v : PyVal)
  | dArr (hd : PyVal)
  | dArrEmpty
  | dOther
deriving DecidableEq, Repr

/-- Result of one `check_upload_status` call as consumed by the poller and
the orchestrator: an error dict (the key `error` is present), a dict with a
top-level `status` key, a dict with no `status` key but a `data` key, or a
dict with neither key. -/
inductive CheckResult
  | err (msg : String)
  | hasStatus (v : PyVal)
  | hasData (d : DataField)
  | neitherKey
deriving DecidableEq, Repr

/-- `int(x)` wrapped in `try/except (ValueError, TypeError)`, as both the
poller (lines 370-373) and the orchestrator (lines 834-837) apply it:
`some n` when conversion succeeds, `none` when it raises.  Python `int` on
a decimal string strips surrounding whitespace, which `String.trim` models;
exotic accepted forms (underscores, unicode digits) are out of scope of the
documented payloads. -/
def py_int_or_none : PyVal → Option Int
  | .pvNone => Option.none
  | .pvInt n => some n
  | .pvStr s => s.trim.toInt?
  | .pvOther => Option.none

/-- Status extraction as written in the poller, lines 324-336: a top-level
`status` key wins; otherwise a `data` key is probed as a dict or as a
non-empty list; everything else leaves the status `None`. -/
def extract_status_poll : CheckResult → PyVal
  | .hasStatus v => v
  | .hasData (.dObj v) => v
  | .hasData (.dArr hd) => hd
  | .hasData .dArrEmpty => .pvNone
  | .hasData .dOther => .pvNone
  | .neitherKey => .pvNone
  | .err _ => .pvNone

/-- Status extraction as written in the orchestrator, lines 820-831 — the
same probing sequence duplicated at the second code site. -/
def extract_status_safe : CheckResult → PyVal
  | .hasStatus v => v
  | .hasData (.dObj v) => v
  | .hasData (.dArr hd) => hd
  | .hasData .dArrEmpty => .pvNone
  | .hasData .dOther => .pvNone
  | .neitherKey => .pvNone
  | .err _ => .pvNone

/-- The integer status the poller observes from one successful
`check_upload_status` result (`none` for an error result, an extraction
miss, or a non-convertible value). -/
def observed_status_poll : CheckResult → Option Int
  | .err _ => Option.none
  | r => py_int_or_none (extract_status_poll r)

/-- The integer status the orchestrator observes from the initial
`check_upload_status` result (lines 820-837). -/
def observed_status_safe : CheckResult → Option Int
  | .err _ => Option.none
  | r => py_int_or_none (extract_status_safe r)

/-- One entry of the poller's `status_history` (lines 299-303, 342-347,
378-383, 406-411).  The wall-clock `timestamp` field of the Python dict is
omitted (real time is not modelled); the remaining fields are kept. -/
inductive ObsEntry
  | obsErr (error : String)
  | obsUnknown (response : CheckResult)
  | obsInvalid (response : CheckResult)
  | obsStatus (status : Int) (response : CheckResult)
deriving DecidableEq, Repr

/-- One recorded status observation: attempt number plus the entry. -/
structure Obs where
  attempt : Nat
  entry : ObsEntry
deriving DecidableEq, Repr

/-- The `status` field of the poller's result dict: an integer, the string
`"unknown"`, the string `"invalid"`, or absent (the error return at lines
307-313 carries no `status` key). -/
inductive PollStatus
  | stInt (n : Int)
  | stUnknown
  | stInvalid
  | stNone
deriving DecidableEq, Repr

/-- Result dict of `poll_upload_status_until_complete`.  `Option` fields
model keys that are present only on some return paths (in particular
`completed_early` is absent from the error and unknown/invalid returns).
The `task_id` key — the `upload_task_id` parameter echoed verbatim on
every return path — is omitted, as the poller never reads it. -/
structure PollResult where
  success : Bool
  status : PollStatus
  error : Option String
  message : Option String
  status_history : List Obs
  final_attempt : Nat
  final_response : Option CheckResult
  completed_early : Option Bool
deriving DecidableEq, Repr

/-- `terminal_statuses = [2, 4, 5, 6]` (line 286). -/
def terminal_statuses : List Int := [2, 4, 5, 6]

/-- How one iteration of the polling loop classifies its
`check_upload_status` result (lines 296-403): an error dict, a successful
dict with no determinable status (`current_status is None` after
extraction), a non-convertible status value, or a proper integer status. -/
inductive StepKind
  | kErr (msg : String)
  | kUnknown (r : CheckResult)
  | kInvalid (r : CheckResult)
  | kStatus (n : Int) (r : CheckResult)
deriving DecidableEq, Repr

/-- Classification of a non-error status response by the polling loop: the
extraction (lines 324-336), the `current_status is None` test (line 339)
and the `int` conversion (lines 370-375). -/
def classify_ok (r : CheckResult) : StepKind :=
  let v := extract_status_poll r
  if v = .pvNone then .kUnknown r
  else
    match py_int_or_none v with
    | Option.none => .kInvalid r
    | some n => .kStatus n r

/-- The classification sequence of the polling loop body, starting with
the `error` key test (line 296). -/
def classify_check (res : CheckResult) : StepKind :=
  match res with
  | .err msg => .kErr msg
  | r => classify_ok r

/-- The loop body of `poll_upload_status_until_complete` (lines 289-446),
from attempt `attempt` on.  `stub` gives the result of the
`check_upload_status` call of each attempt (1-indexed); the second
component of the result counts the `time.sleep` calls executed.  The
Python for-loop runs `attempt` from 1 to `max_attempts`; `fuel` is the
number of iterations remaining after the current one (`maxA - attempt`),
so the guard `attempt == max_attempts` before each in-loop return, and the
guard `attempt < max_attempts` before each sleep, become `fuel = 0` and
`fuel > 0`. -/
def pollLoop (stub : Nat → CheckResult) (maxA : Nat) :
    Nat → Nat → List Obs → Nat → PollResult × Nat
  | fuel, attempt, hist, sleeps =>
    match classify_check (stub attempt) with
    | .kErr msg =>
      let hist2 := hist ++ [⟨attempt, .obsErr msg⟩]
      match fuel with
      | 0 =>
        ({success := false, status := .stNone,
          error := some s!"Failed to check status after {maxA} attempts",
          message := Option.none, status_history := hist2,
          final_attempt := attempt, final_response := Option.none,
          completed_early := Option.none}, sleeps)
      | f + 1 =>
        pollLoop stub maxA f (attempt + 1) hist2 (sleeps + 1)
    | .kUnknown r =>
      let hist2 := hist ++ [⟨attempt, .obsUnknown r⟩]
      match fuel with
      | 0 =>
        ({success := true, status := .stUnknown, error := Option.none,
          message := some s!"Status polling completed after {maxA} attempts",
          status_history := hist2, final_attempt := attempt,
          final_response := some r, completed_early := Option.none}, sleeps)
      | f + 1 =>
        pollLoop stub maxA f (attempt + 1) hist2 (sleeps + 1)
    | .kInvalid r =>
      let hist2 := hist ++ [⟨attempt, .obsInvalid r⟩]
      match fuel with
      | 0 =>
        ({success := true, status := .stInvalid, error := Option.none,
          message := some s!"Status polling completed after {maxA} attempts",
          status_history := hist2, final_attempt := attempt,
          final_response := some r, completed_early := Option.none}, sleeps)
      | f + 1 =>
        pollLoop stub maxA f (attempt + 1) hist2 (sleeps + 1)
    | .kStatus n r =>
      let hist2 := hist ++ [⟨attempt, .obsStatus n r⟩]
      if n ∈ terminal_statuses then
        ({success := true, status := .stInt n, error := Option.none,
          message := some s!"Upload reached terminal status {n} after {attempt} checks",
          status_history := hist2, final_attempt := attempt,
          final_response := some r, completed_early := some true}, sleeps)
      else
        match fuel with
        | 0 =>
          ({success := true, status := .stInt n, error := Option.none,
            message := some s!"Status polling completed after {maxA} attempts without reaching terminal status",
            status_history := hist2, final_attempt := maxA,
            final_response := some r, completed_early := some false}, sleeps)
        | f + 1 =>
          pollLoop stub maxA f (attempt + 1) hist2 (sleeps + 1)

/-- `poll_upload_status_until_complete` (lines 269-461).  With
`max_attempts = 0` the Python loop body never runs and the final return
references the unbound local `current_status`, raising `NameError`;
that exception path is `Option.none`. -/
def poll_upload_status_until_complete (stub : Nat → CheckResult)
    (maxA : Nat) : Option (PollResult × Nat) :=
  if maxA = 0 then Option.none else some (pollLoop stub maxA (maxA - 1) 1 [] 0)

/-- The arguments `safe_submit_parsed_model` forwards to
`submit_parsed_model` (lines 989-996): the supplied task id and model
metadata, unchanged.  `brand_cats = Option.none` models passing Python
`None` (the default list is only substituted inside `submit_parsed_model`
itself, line 637-638). -/
structure SubmitArgs where
  upload_task_id : String
  model_name : String
  pos : Int
  prod_cat : Int
  brand_cats : Option (List String)
  brand_good_code : String
deriving DecidableEq, Repr

/-- Result dict of a `submit_parsed_model` call as the orchestrator
inspects it (line 999: `if 'error' in submit_result`): an error dict with
its message, or a success dict (payload left opaque, tagged to keep
distinct results distinguishable). -/
inductive SubmitResult
  | submitErr (msg : String)
  | submitOk (tag : Nat)
deriving DecidableEq, Repr

/-- The `status` field of the orchestrator's result dict: an integer
status, or the literal string `'submitted'` (line 1015). -/
inductive SafeStatus
  | sInt (n : Int)
  | sSubmitted
deriving DecidableEq, Repr

/-- Result dict of `safe_submit_parsed_model`.  `Option` fields model dict
keys that only some return paths carry; `Option.none` means the key is
absent from that return.  The constant `endpoint` key
(`'safe_submit_model'` on every path) and the `model_name`/`pos`/
`prod_cat` echoes of the exception path are omitted, as no caller reads
them. -/
structure SafeSubmitResult where
  success : Bool
  status : Option SafeStatus := Option.none
  error : Option String := Option.none
  error_code : Option String := Option.none
  message : Option String := Option.none
  task_id : String
  current_status : Option Int := Option.none
  submission_skipped : Option Bool := Option.none
  submit_result : Option SubmitResult := Option.none
  status_check_result : Option CheckResult := Option.none
  status_result : Option CheckResult := Option.none
  poll_result : Option PollResult := Option.none
deriving DecidableEq, Repr

/-- The `if 'error' in status_result` test of line 807: the message when
the key is present. -/
def check_has_error : CheckResult → Option String
  | .err m => some m
  | _ => Option.none

/-- How Python renders the poller's `status` value inside an f-string
(used in the UNEXPECTED_STATUS message, line 907). -/
def poll_status_text : PollStatus → String
  | .stInt n => toString n
  | .stUnknown => "unknown"
  | .stInvalid => "invalid"
  | .stNone => "None"

/-- How Python renders an `Option`al string inside an f-string
(`poll_result.get('error')` is `None` when absent, line 872). -/
def opt_text : Option String → String
  | some s => s
  | Option.none => "None"

/-- `safe_submit_parsed_model` (lines 773-1038).  `initial` is the result
of the initial `check_upload_status` call (line 805); `pollStub` feeds the
`check_upload_status` calls of the auto-poll (line 860); `submitStub` is
the `submit_parsed_model` collaborator.  The second component of the
result lists the `submit_parsed_model` invocations made, in order, with
their arguments.  The `elif` chain of lines 845-983 is rendered as the
if-chain below; the `current_status == 5` arm only prints debug output and
falls through to Step 3, as does any integer status matching no arm, so
both reach the final `submitStep`. -/
def safe_submit_parsed_model (initial : CheckResult)
    (pollStub : Nat → CheckResult) (submitStub : SubmitArgs → SubmitResult)
    (upload_task_id model_name : String) (pos prod_cat : Int)
    (brand_cats : Option (List String)) (brand_good_code : String)
    (auto_poll : Bool) (max_poll_attempts : Nat) :
    SafeSubmitResult × List SubmitArgs :=
  match check_has_error initial with
  | some msg =>
    ({success := false, error := some ("Status check failed: " ++ msg),
      error_code := some "STATUS_CHECK_FAILED", task_id := upload_task_id,
      status_check_result := some initial}, [])
  | Option.none =>
    let cs : Option Int := py_int_or_none (extract_status_safe initial)
    let args : SubmitArgs :=
      ⟨upload_task_id, model_name, pos, prod_cat, brand_cats, brand_good_code⟩
    let submitStep : SafeSubmitResult × List SubmitArgs :=
      match submitStub args with
      | .submitErr m =>
        ({success := false,
          error := some ("Model submission failed: " ++ m),
          submit_result := some (.submitErr m), task_id := upload_task_id,
          status_check_result := some initial}, [args])
      | .submitOk t =>
        ({success := true, status := some .sSubmitted,
          message := some "Model submitted successfully through safe workflow",
          submit_result := some (.submitOk t), task_id := upload_task_id,
          status_check_result := some initial}, [args])
    if cs = some 3 then submitStep
    else if cs = some 0 ∨ cs = some 1 then
      if auto_poll then
        match poll_upload_status_until_complete pollStub max_poll_attempts with
        | Option.none =>
          -- max_poll_attempts = 0: the poll loop body never runs and its
          -- final return raises on the unbound local; the exception is
          -- caught by the handler of line 1023
          ({success := false,
            error := some "cannot access local variable referenced before assignment",
            error_code := some "EXCEPTION", task_id := upload_task_id}, [])
        | some pr =>
          if pr.1.success then
            match pr.1.status with
            | .stInt n =>
              if n = 3 then submitStep
              else if n ∈ terminal_statuses then
                ({success := true, status := some (.sInt n),
                  message := some s!"Model reached terminal status {n} during polling",
                  task_id := upload_task_id, poll_result := some pr.1,
                  submission_skipped := some true}, [])
              else
                ({success := false,
                  error := some ("Unexpected final status after polling: " ++
                    poll_status_text pr.1.status),
                  error_code := some "UNEXPECTED_STATUS",
                  task_id := upload_task_id, poll_result := some pr.1}, [])
            | s2 =>
              ({success := false,
                error := some ("Unexpected final status after polling: " ++
                  poll_status_text s2),
                error_code := some "UNEXPECTED_STATUS",
                task_id := upload_task_id, poll_result := some pr.1}, [])
          else
            ({success := false,
              error := some ("Auto-polling failed: " ++ opt_text pr.1.error),
              error_code := some "AUTO_POLL_FAILED", task_id := upload_task_id,
              poll_result := some pr.1}, [])
      else
        ({success := false,
          error := some ("Cannot submit with status " ++
            toString ((cs.map toString).getD "None") ++
            " (parsing not complete). Enable auto_poll or wait for status 3."),
          error_code := some "PARSING_NOT_COMPLETE", task_id := upload_task_id,
          current_status := cs}, [])
    else if cs = some 2 then
      ({success := false, status := some (.sInt 2),
        error := some "Parsing failed (status 2) - cannot submit the model",
        error_code := some "PARSING_FAILED", task_id := upload_task_id,
        current_status := cs}, [])
    else if cs = some 4 then
      ({success := true, status := some (.sInt 4),
        message := some "Model already submitted (status 4)",
        task_id := upload_task_id, current_status := cs,
        submission_skipped := some true}, [])
    else if cs = some 6 then
      ({success := false,
        error := some "Model analyzed offline (status 6) - cannot submit",
        error_code := some "OFFLINE_ANALYSIS", task_id := upload_task_id,
        current_status := cs}, [])
    else if cs = Option.none then
      ({success := false,
        error := some "Unknown status - cannot proceed safely",
        error_code := some "UNKNOWN_STATUS", task_id := upload_task_id,
        status_result := some initial}, [])
    else
      -- current_status == 5 (retry arm, lines 954-957, no return) or any
      -- integer outside 0..6: no elif of lines 845-983 returns, and
      -- control falls through to Step 3 (line 989)
      submitStep

/-- Whether a `submit_parsed_model` result dict carries the `error` key
(line 999). -/
def submit_has_error : SubmitResult → Bool
  | .submitErr _ => true
  | .submitOk _ => false

/-- The parameter dict handed to `generate_signature`: the two entries the
signature reads (`appkey`, `timestamp`) plus any further entries
(`file_name`, `upload_task_id`, `library`, ...), which the signature never
touches. -/
structure SignParams where
  appkey : String
  timestamp : String
  extra : List (String × String) := []
deriving DecidableEq, Repr

/-- `generate_signature` (lines 22-26): the hex digest of
`app_secret + params['appkey'] + params['timestamp']`.  The `hashlib.md5`
hex digest is an opaque pure collaborator, passed as `md5hex`. -/
def generate_signature (md5hex : String → String) (app_secret : String)
    (params : SignParams) : String :=
  md5hex (app_secret ++ params.appkey ++ params.timestamp)

/-- The `d` payload of the remote envelope `{c, m, d}` as
`get_sts_credentials` discriminates it (lines 67-74): null, a dict
(returned as-is), or any other value (wrapped).  Payloads are tagged to
keep distinct responses distinguishable. -/
inductive DVal
  | dNone
  | dDict (tag : Nat)
  | dOther (tag : Nat)
deriving DecidableEq, Repr

/-- A decoded remote response envelope: `data.get('c')`, `data.get('m')`
(absent keys give `Option.none`) and the `d` payload. -/
structure Envelope where
  c : Option String
  m : Option String
  d : DVal
deriving DecidableEq, Repr

/-- Outcome of one `requests.get` call inside the credentials loop: an
HTTP response with a decodable JSON body, a `requests.exceptions.Timeout`,
a `requests.exceptions.ConnectionError`, or any other exception (which
also covers a JSON decode failure, both landing in the generic handler of
line 178). -/
inductive TransportOutcome
  | ok (status_code : Nat) (body : Envelope)
  | timeoutExc
  | connectionExc
  | otherExc (msg : String)
deriving DecidableEq, Repr

/-- The `error_code` slot of a structured error result: a string code, an
HTTP status number (line 130), or Python `None` (when `data.get('c')` is
absent, line 112). -/
inductive ErrCode
  | codeStr (s : String)
  | codeNum (n : Nat)
  | codeNone
deriving DecidableEq, Repr

/-- `'error_code': data.get('c')` (line 112). -/
def code_of_opt : Option String → ErrCode
  | some s => .codeStr s
  | Option.none => .codeNone

/-- The request params dict of one credentials attempt (lines 42-49):
`appkey`, `timestamp`, url-encoded `file_name`, and the `sign` entry added
after signing. -/
structure StsParams where
  appkey : String
  timestamp : String
  file_name : String
  sign : Option String
deriving DecidableEq, Repr

/-- The `request_data` echo carried by every structured error result of
the credentials endpoint (lines 96-101 and parallels). -/
structure StsRequestData where
  url : String
  params : StsParams
  filename : String
  timestamp : String
deriving DecidableEq, Repr

/-- A structured error result of `get_sts_credentials`.  `full_response`
and `retry_attempts` are keys only some branches carry; the
`response_text` echo of the HTTP-error branch is not modelled (the
transport model carries no raw body text). -/
structure StsError where
  error : String
  error_code : ErrCode
  full_response : Option Envelope := Option.none
  retry_attempts : Option Nat := Option.none
  request_data : StsRequestData
deriving DecidableEq, Repr

/-- Return value of `get_sts_credentials`: the `d` dict returned verbatim
(line 72), the wrapper dict `{'success': True, 'data': ..., 'message':
...}` (lines 70 and 74, `data` either null or the scalar payload), a
structured error dict, or Python `None` (the fall-through of line 193,
reachable only with `max_retries = 0`). -/
inductive StsResult
  | okDict (tag : Nat)
  | okWrapped (dataTag : Option Nat)
  | errorRes (e : StsError)
  | noneRes
deriving DecidableEq, Repr

/-- The retry loop of `get_sts_credentials` (lines 38-191), from attempt
`attempt` (0-indexed) on.  `tstamps` gives the timestamp string minted at
each attempt, `transport` the outcome of each attempt's HTTP call; the
second result component records the durations of the `time.sleep` calls
executed.  The Python loop runs `attempt` over `range(max_retries)` and
retries while `attempt < max_retries - 1`; `fuel` is the number of
attempts remaining after the current one (`max_retries - 1 - attempt`),
so that retry guard becomes `fuel > 0`. -/
def stsLoop (md5hex urlquote : String → String)
    (app_key app_secret filename : String) (tstamps : Nat → String)
    (transport : Nat → TransportOutcome) (max_retries : Nat) :
    Nat → Nat → List Nat → StsResult × List Nat
  | fuel, attempt, sleeps =>
    let timestamp := tstamps attempt
    let encoded_filename := urlquote filename
    let signature := generate_signature md5hex app_secret
      ⟨app_key, timestamp, [("file_name", encoded_filename)]⟩
    let params : StsParams :=
      {appkey := app_key, timestamp := timestamp,
       file_name := encoded_filename, sign := some signature}
    let url := "https://api.coohom.com/global/commodity/upload/sts"
    let reqData : StsRequestData :=
      ⟨url, params, filename, timestamp⟩
    match transport attempt with
    | .ok sc body =>
      if sc = 200 then
        if body.c = some "0" then
          match body.d with
          | .dNone => (.okWrapped Option.none, sleeps)
          | .dDict t => (.okDict t, sleeps)
          | .dOther t => (.okWrapped (some t), sleeps)
        else if body.c = some "100004" then
          match fuel with
          | f + 1 =>
            stsLoop md5hex urlquote app_key app_secret filename tstamps
              transport max_retries f (attempt + 1)
              (sleeps ++ [(attempt + 1) * 2])
          | 0 =>
            (.errorRes
              {error := "API Timeout after all retry attempts - Coohom servers are experiencing high load",
               error_code := .codeStr "100004",
               full_response := some body,
               retry_attempts := some max_retries,
               request_data := reqData}, sleeps)
        else
          (.errorRes
            {error := body.m.getD "Unknown error",
             error_code := code_of_opt body.c,
             full_response := some body,
             request_data := reqData}, sleeps)
      else
        (.errorRes
          {error := "HTTP Error: " ++ toString sc,
           error_code := .codeNum sc,
           request_data := reqData}, sleeps)
    | .timeoutExc =>
      match fuel with
      | f + 1 =>
        stsLoop md5hex urlquote app_key app_secret filename tstamps
          transport max_retries f (attempt + 1)
          (sleeps ++ [(attempt + 1) * 2])
      | 0 =>
        (.errorRes
          {error := "Request timeout after all attempts",
           error_code := .codeStr "TIMEOUT",
           retry_attempts := some max_retries,
           request_data := reqData}, sleeps)
    | .connectionExc =>
      (.errorRes
        {error := "Connection error - Check your internet connection",
         error_code := .codeStr "CONNECTION_ERROR",
         request_data := reqData}, sleeps)
    | .otherExc msg =>
      (.errorRes
        {error := msg,
         error_code := .codeStr "UNEXPECTED_ERROR",
         request_data := reqData}, sleeps)

/-- `get_sts_credentials` (lines 28-193): run the retry loop from attempt
0; with `max_retries = 0` the loop body never runs and line 193 returns
`None`. -/
def get_sts_credentials (md5hex urlquote : String → String)
    (app_key app_secret filename : String) (tstamps : Nat → String)
    (transport : Nat → TransportOutcome) (max_retries : Nat) :
    StsResult × List Nat :=
  if max_retries = 0 then (.noneRes, [])
  else
    stsLoop md5hex urlquote app_key app_secret filename tstamps transport
      max_retries (max_retries - 1) 0 []

theorem classify_ok_kStatus {r r2 : CheckResult} {n : Int}
    (h : classify_ok r = .kStatus n r2) :
    py_int_or_none (extract_status_poll r) = some n ∧ r2 = r := by
  unfold classify_ok at h
  by_cases hv : extract_status_poll r = .pvNone
  · simp [hv] at h
  · simp only [hv, if_false] at h
    cases hp : py_int_or_none (extract_status_poll r) <;> rw [hp] at h <;>
      simp_all

theorem classify_check_kStatus {r r2 : CheckResult} {n : Int}
    (h : classify_check r = .kStatus n r2) :
    observed_status_poll r = some n ∧ r2 = r := by
  cases r with
  | err m => simp [classify_check] at h
  | hasStatus v =>
    exact classify_ok_kStatus (show classify_ok _ = _ from h)
  | hasData d =>
    exact classify_ok_kStatus (show classify_ok _ = _ from h)
  | neitherKey =>
    rw [show classify_check CheckResult.neitherKey =
          classify_ok CheckResult.neitherKey from rfl] at h
    exact classify_ok_kStatus h

theorem classify_check_of_observed {r : CheckResult} {n : Int}
    (h : observed_status_poll r = some n) :
    classify_check r = .kStatus n r := by
  have hob : py_int_or_none (extract_status_poll r) = some n := by
    cases r <;> simp_all [observed_status_poll]
  have hv : extract_status_poll r ≠ .pvNone := by
    intro hc
    rw [hc] at hob
    simp [py_int_or_none] at hob
  have hok : classify_ok r = .kStatus n r := by
    unfold classify_ok
    simp only [hv, if_false, hob]
  cases r with
  | err m => simp [observed_status_poll] at h
  | hasStatus v => exact hok
  | hasData d => exact hok
  | neitherKey => exact hok

theorem pollLoop_cont_err {stub : Nat → CheckResult} {maxA f attempt : Nat}
    {hist : List Obs} {sleeps : Nat} {msg : String}
    (hc : classify_check (stub attempt) = .kErr msg) :
    pollLoop stub maxA (f + 1) attempt hist sleeps =
      pollLoop stub maxA f (attempt + 1)
        (hist ++ [⟨attempt, .obsErr msg⟩]) (sleeps + 1) := by
  rw [pollLoop, hc]

theorem pollLoop_cont_unknown {stub : Nat → CheckResult} {maxA f attempt : Nat}
    {hist : List Obs} {sleeps : Nat} {r : CheckResult}
    (hc : classify_check (stub attempt) = .kUnknown r) :
    pollLoop stub maxA (f + 1) attempt hist sleeps =
      pollLoop stub maxA f (attempt + 1)
        (hist ++ [⟨attempt, .obsUnknown r⟩]) (sleeps + 1) := by
  rw [pollLoop, hc]

theorem pollLoop_cont_invalid {stub : Nat → CheckResult} {maxA f attempt : Nat}
    {hist : List Obs} {sleeps : Nat} {r : CheckResult}
    (hc : classify_check (stub attempt) = .kInvalid r) :
    pollLoop stub maxA (f + 1) attempt hist sleeps =
      pollLoop stub maxA f (attempt + 1)
        (hist ++ [⟨attempt, .obsInvalid r⟩]) (sleeps + 1) := by
  rw [pollLoop, hc]

theorem pollLoop_cont_nonterminal {stub : Nat → CheckResult} {maxA f attempt : Nat}
    {hist : List Obs} {sleeps : Nat} {n : Int} {r : CheckResult}
    (hc : classify_check (stub attempt) = .kStatus n r)
    (hnt : n ∉ terminal_statuses) :
    pollLoop stub maxA (f + 1) attempt hist sleeps =
      pollLoop stub maxA f (attempt + 1)
        (hist ++ [⟨attempt, .obsStatus n r⟩]) (sleeps + 1) := by
  rw [pollLoop, hc]
  simp [hnt]

theorem pollLoop_terminal_fire {stub : Nat → CheckResult} {maxA fuel attempt : Nat}
    {hist : List Obs} {sleeps : Nat} {n : Int} {r : CheckResult}
    (hc : classify_check (stub attempt) = .kStatus n r)
    (ht : n ∈ terminal_statuses) :
    pollLoop stub maxA fuel attempt hist sleeps =
      ({success := true, status := .stInt n, error := Option.none,
        message := some s!"Upload reached terminal status {n} after {attempt} checks",
        status_history := hist ++ [⟨attempt, .obsStatus n r⟩],
        final_attempt := attempt, final_response := some r,
        completed_early := some true}, sleeps) := by
  rw [pollLoop, hc]
  simp [ht]

theorem pollLoop_zero_nonterminal {stub : Nat → CheckResult} {maxA attempt : Nat}
    {hist : List Obs} {sleeps : Nat} {n : Int} {r : CheckResult}
    (hc : classify_check (stub attempt) = .kStatus n r)
    (hnt : n ∉ terminal_statuses) :
    pollLoop stub maxA 0 attempt hist sleeps =
      ({success := true, status := .stInt n, error := Option.none,
        message := some s!"Status polling completed after {maxA} attempts without reaching terminal status",
        status_history := hist ++ [⟨attempt, .obsStatus n r⟩],
        final_attempt := maxA, final_response := some r,
        completed_early := some false}, sleeps) := by
  rw [pollLoop, hc]
  simp [hnt]

theorem pollLoop_reaches_terminal (stub : Nat → CheckResult) (maxA k : Nat) (n : Int)
    (hterm : observed_status_poll (stub k) = some n)
    (hn : n ∈ terminal_statuses)
    (hbefore : ∀ j, 1 ≤ j → j < k → ∀ m, observed_status_poll (stub j) = some m →
      m ∉ terminal_statuses) :
    ∀ fuel attempt hist sleeps, 1 ≤ attempt → attempt ≤ k → k ≤ attempt + fuel →
      (pollLoop stub maxA fuel attempt hist sleeps).1.success = true ∧
      (pollLoop stub maxA fuel attempt hist sleeps).1.status = .stInt n ∧
      (pollLoop stub maxA fuel attempt hist sleeps).1.final_attempt = k ∧
      (pollLoop stub maxA fuel attempt hist sleeps).1.completed_early = some true ∧
      (pollLoop stub maxA fuel attempt hist sleeps).1.final_response = some (stub k) ∧
      (pollLoop stub maxA fuel attempt hist sleeps).2 = sleeps + (k - attempt) := by
  intro fuel
  induction fuel with
  | zero =>
    intro attempt hist sleeps h0 h1 h2
    have hak : attempt = k := by omega
    subst hak
    rw [pollLoop_terminal_fire (classify_check_of_observed hterm) hn]
    refine ⟨rfl, rfl, rfl, rfl, rfl, by omega⟩
  | succ f ih =>
    intro attempt hist sleeps h0 h1 h2
    by_cases hak : attempt = k
    · subst hak
      rw [pollLoop_terminal_fire (classify_check_of_observed hterm) hn]
      refine ⟨rfl, rfl, rfl, rfl, rfl, by omega⟩
    · have hlt : attempt < k := lt_of_le_of_ne h1 hak
      cases hc : classify_check (stub attempt) with
      | kErr msg =>
        rw [pollLoop_cont_err hc]
        obtain ⟨a, b, c, d, e, f2⟩ :=
          ih (attempt + 1) (hist ++ [⟨attempt, .obsErr msg⟩]) (sleeps + 1)
            (by omega) (by omega) (by omega)
        exact ⟨a, b, c, d, e, by rw [f2]; omega⟩
      | kUnknown r =>
        rw [pollLoop_cont_unknown hc]
        obtain ⟨a, b, c, d, e, f2⟩ :=
          ih (attempt + 1) (hist ++ [⟨attempt, .obsUnknown r⟩]) (sleeps + 1)
            (by omega) (by omega) (by omega)
        exact ⟨a, b, c, d, e, by rw [f2]; omega⟩
      | kInvalid r =>
        rw [pollLoop_cont_invalid hc]
        obtain ⟨a, b, c, d, e, f2⟩ :=
          ih (attempt + 1) (hist ++ [⟨attempt, .obsInvalid r⟩]) (sleeps + 1)
            (by omega) (by omega) (by omega)
        exact ⟨a, b, c, d, e, by rw [f2]; omega⟩
      | kStatus m r =>
        have hobs := (classify_check_kStatus hc).1
        have hmnt : m ∉ terminal_statuses := hbefore attempt h0 hlt m hobs
        rw [pollLoop_cont_nonterminal hc hmnt]
        obtain ⟨a, b, c, d, e, f2⟩ :=
          ih (attempt + 1) (hist ++ [⟨attempt, .obsStatus m r⟩]) (sleeps + 1)
            (by omega) (by omega) (by omega)
        exact ⟨a, b, c, d, e, by rw [f2]; omega⟩

theorem pollLoop_exhausts (stub : Nat → CheckResult) (maxA : Nat) (n : Int)
    (hnt : n ∉ terminal_statuses) :
    ∀ fuel attempt hist sleeps,
      (∀ j, attempt ≤ j → j ≤ attempt + fuel → observed_status_poll (stub j) = some n) →
      pollLoop stub maxA fuel attempt hist sleeps =
        ({success := true, status := .stInt n, error := Option.none,
          message := some s!"Status polling completed after {maxA} attempts without reaching terminal status",
          status_history := hist ++
            (List.range' attempt (fuel + 1)).map
              (fun j => ⟨j, .obsStatus n (stub j)⟩),
          final_attempt := maxA, final_response := some (stub (attempt + fuel)),
          completed_early := some false}, sleeps + fuel) := by
  intro fuel
  induction fuel with
  | zero =>
    intro attempt hist sleeps hall
    rw [pollLoop_zero_nonterminal
      (classify_check_of_observed (hall attempt le_rfl (by omega))) hnt]
    simp [List.range']
  | succ f ih =>
    intro attempt hist sleeps hall
    rw [pollLoop_cont_nonterminal
      (classify_check_of_observed (hall attempt le_rfl (by omega))) hnt]
    have hrec := ih (attempt + 1)
      (hist ++ [⟨attempt, .obsStatus n (stub attempt)⟩]) (sleeps + 1)
      (fun j hj1 hj2 => hall j (by omega) (by omega))
    refine hrec.trans ?_
    have e1 : attempt + 1 + f = attempt + (f + 1) := by omega
    have e2 : sleeps + 1 + f = sleeps + (f + 1) := by omega
    rw [e1, e2, List.range'_succ, List.map_cons, List.append_assoc]
    simp [List.range'_succ]

theorem observed_safe_eq {r : CheckResult} (h : check_has_error r = Option.none) :
    py_int_or_none (extract_status_safe r) = observed_status_safe r := by
  cases r <;> simp_all [check_has_error, observed_status_safe]

theorem check_has_error_none_of_observed {r : CheckResult} {n : Int}
    (h : observed_status_safe r = some n) : check_has_error r = Option.none := by
  cases r <;> simp_all [check_has_error, observed_status_safe]

theorem stsLoop_busy (md5hex urlquote : String → String)
    (app_key app_secret filename : String) (tstamps : Nat → String)
    (transport : Nat → TransportOutcome) (envs : Nat → Envelope)
    (max_retries : Nat) :
    ∀ fuel attempt sleeps,
      (∀ a, attempt ≤ a → a ≤ attempt + fuel →
        transport a = .ok 200 (envs a) ∧ (envs a).c = some "100004") →
      stsLoop md5hex urlquote app_key app_secret filename tstamps transport
          max_retries fuel attempt sleeps =
        (.errorRes
          {error := "API Timeout after all retry attempts - Coohom servers are experiencing high load",
           error_code := .codeStr "100004",
           full_response := some (envs (attempt + fuel)),
           retry_attempts := some max_retries,
           request_data :=
             {url := "https://api.coohom.com/global/commodity/upload/sts",
              params :=
                {appkey := app_key, timestamp := tstamps (attempt + fuel),
                 file_name := urlquote filename,
                 sign := some (generate_signature md5hex app_secret
                   ⟨app_key, tstamps (attempt + fuel),
                    [("file_name", urlquote filename)]⟩)},
              filename := filename, timestamp := tstamps (attempt + fuel)}},
         sleeps ++ (List.range' attempt fuel).map (fun a => (a + 1) * 2)) := by
  have hne : (some "100004" : Option String) ≠ some "0" := by decide
  intro fuel
  induction fuel with
  | zero =>
    intro attempt sleeps hall
    obtain ⟨htr, hc⟩ := hall attempt le_rfl (by omega)
    simp only [stsLoop, htr, hc]
    rw [if_pos trivial, if_neg hne, if_pos trivial]
    simp
  | succ f ih =>
    intro attempt sleeps hall
    obtain ⟨htr, hc⟩ := hall attempt le_rfl (by omega)
    simp only [stsLoop, htr, hc]
    rw [if_pos trivial, if_neg hne, if_pos trivial]
    have hrec := ih (attempt + 1) (sleeps ++ [(attempt + 1) * 2])
      (fun a ha1 ha2 => hall a (by omega) (by omega))
    refine hrec.trans ?_
    have e1 : attempt + 1 + f = attempt + (f + 1) := by omega
    rw [e1, List.range'_succ, List.map_cons, List.append_assoc]
    simp

/-- C1, failing-input evaluation: the claim says that whenever the
decision table does not permit submission (observed status not 3, not 5,
and no auto-poll ending at 3), `safe_submit_parsed_model` returns without
invoking `submit_parsed_model`.  The code violates this: an initial check
yielding status 7 — outside the documented enumeration, hence not
permitted by the table — matches no arm of the `elif` chain of lines
845-983 and falls through to Step 3, so `submit_parsed_model` is invoked
once (and the workflow even reports a successful submission), against the
code's own comment at line 985 that only statuses 3 and 5 reach that
point. -/
theorem safe_submit_status7_submits :
    observed_status_safe (.hasStatus (.pvInt 7)) = some 7 ∧
    (safe_submit_parsed_model (.hasStatus (.pvInt 7)) (fun _ => .neitherKey)
        (fun _ => .submitOk 0) "task-1" "3D Model" 99 288 Option.none "code"
        true 5).2 =
      [⟨"task-1", "3D Model", 99, 288, Option.none, "code"⟩] ∧
    (safe_submit_parsed_model (.hasStatus (.pvInt 7)) (fun _ => .neitherKey)
        (fun _ => .submitOk 0) "task-1" "3D Model" 99 288 Option.none "code"
        true 5).1.status = some .sSubmitted :=
  ⟨rfl, rfl, rfl⟩

/-- C2: for every `maxAttempts ≥ 1`, if `CheckStatus` yields a status in
the terminal set `{2, 4, 5, 6}` on some attempt `k` (and on no earlier
attempt), `poll_upload_status_until_complete` terminates immediately at
attempt `k` with `completed_early = true` and `final_attempt = k` —
remaining attempts are not waited out. -/
theorem poll_terminal_detection (stub : Nat → CheckResult) (maxA k : Nat) (n : Int)
    (h1 : 1 ≤ k) (h2 : k ≤ maxA)
    (hterm : observed_status_poll (stub k) = some n)
    (hn : n ∈ terminal_statuses)
    (hbefore : ∀ j, 1 ≤ j → j < k → ∀ m, observed_status_poll (stub j) = some m →
      m ∉ terminal_statuses) :
    ∃ p, poll_upload_status_until_complete stub maxA = some p ∧
      p.1.success = true ∧ p.1.completed_early = some true ∧
      p.1.final_attempt = k ∧ p.1.status = .stInt n := by
  have hne : ¬ maxA = 0 := by omega
  obtain ⟨a, b, c, d, e, f⟩ :=
    pollLoop_reaches_terminal stub maxA k n hterm hn hbefore
      (maxA - 1) 1 [] 0 (by omega) h1 (by omega)
  exact ⟨pollLoop stub maxA (maxA - 1) 1 [] 0,
    by unfold poll_upload_status_until_complete; rw [if_neg hne],
    a, d, c, b⟩

theorem poll_terminal_detection_witness :
    ∃ p, poll_upload_status_until_complete (fun _ => .hasStatus (.pvInt 4)) 5 = some p ∧
      p.1.success = true ∧ p.1.completed_early = some true ∧
      p.1.final_attempt = 1 ∧ p.1.status = .stInt 4 :=
  poll_terminal_detection (fun _ => .hasStatus (.pvInt 4)) 5 1 4
    (by omega) (by omega) rfl (by decide)
    (fun j hj1 hj2 m _ => absurd (lt_of_le_of_lt hj1 hj2) (by omega))

/-- C3: if every `CheckStatus` call succeeds with non-terminal status 1
and `maxAttempts = 3`, the poller exhausts its attempt budget and returns
`success = true`, `completed_early = false`, `final_attempt = 3`, carrying
the last known status 1; budget exhaustion is not reported as failure. -/
theorem poll_budget_exhaustion (stub : Nat → CheckResult)
    (hall : ∀ a, 1 ≤ a → a ≤ 3 → observed_status_poll (stub a) = some 1) :
    ∃ p, poll_upload_status_until_complete stub 3 = some p ∧
      p.1.success = true ∧ p.1.completed_early = some false ∧
      p.1.final_attempt = 3 ∧ p.1.status = .stInt 1 := by
  have h := pollLoop_exhausts stub 3 1 (by decide) 2 1 [] 0
    (fun j hj1 hj2 => hall j hj1 (by omega))
  refine ⟨pollLoop stub 3 2 1 [] 0,
    by unfold poll_upload_status_until_complete; norm_num, ?_, ?_, ?_, ?_⟩ <;>
    rw [h]

theorem poll_budget_exhaustion_witness :
    ∃ p, poll_upload_status_until_complete (fun _ => .hasStatus (.pvInt 1)) 3 = some p ∧
      p.1.success = true ∧ p.1.completed_early = some false ∧
      p.1.final_attempt = 3 ∧ p.1.status = .stInt 1 :=
  poll_budget_exhaustion (fun _ => .hasStatus (.pvInt 1)) (fun _ _ _ => rfl)

/-- C4: when the initial status check yields status 4 (already
submitted), `safe_submit_parsed_model` returns `success = true` with
`submission_skipped = true` and never invokes `submit_parsed_model` (the
invocation trace is empty). -/
theorem safe_submit_skip_status4 (initial : CheckResult)
    (pollStub : Nat → CheckResult) (submitStub : SubmitArgs → SubmitResult)
    (tid name : String) (pos pc : Int) (bc : Option (List String))
    (bgc : String) (ap : Bool) (mpa : Nat)
    (h : observed_status_safe initial = some 4) :
    (safe_submit_parsed_model initial pollStub submitStub
        tid name pos pc bc bgc ap mpa).2 = [] ∧
    (safe_submit_parsed_model initial pollStub submitStub
        tid name pos pc bc bgc ap mpa).1.success = true ∧
    (safe_submit_parsed_model initial pollStub submitStub
        tid name pos pc bc bgc ap mpa).1.submission_skipped = some true := by
  have hne := check_has_error_none_of_observed h
  have hcs : py_int_or_none (extract_status_safe initial) = some 4 := by
    rw [observed_safe_eq hne, h]
  simp only [safe_submit_parsed_model, hne, hcs]
  norm_num

theorem safe_submit_skip_status4_witness :
    observed_status_safe (.hasStatus (.pvInt 4)) = some 4 ∧
    (safe_submit_parsed_model (.hasStatus (.pvInt 4)) (fun _ => .neitherKey)
        (fun _ => .submitOk 0) "tid" "3D Model" 99 288 Option.none "code"
        true 5).2 = [] ∧
    (safe_submit_parsed_model (.hasStatus (.pvInt 4)) (fun _ => .neitherKey)
        (fun _ => .submitOk 0) "tid" "3D Model" 99 288 Option.none "code"
        true 5).1.success = true :=
  ⟨rfl,
   (safe_submit_skip_status4 (.hasStatus (.pvInt 4)) (fun _ => .neitherKey)
      (fun _ => .submitOk 0) "tid" "3D Model" 99 288 Option.none "code"
      true 5 rfl).1,
   (safe_submit_skip_status4 (.hasStatus (.pvInt 4)) (fun _ => .neitherKey)
      (fun _ => .submitOk 0) "tid" "3D Model" 99 288 Option.none "code"
      true 5 rfl).2.1⟩

/-- C5: when the initial status check yields status 2 (parse failed),
`safe_submit_parsed_model` returns `success = false` with error code
`PARSING_FAILED` and never invokes `submit_parsed_model`. -/
theorem safe_submit_block_status2 (initial : CheckResult)
    (pollStub : Nat → CheckResult) (submitStub : SubmitArgs → SubmitResult)
    (tid name : String) (pos pc : Int) (bc : Option (List String))
    (bgc : String) (ap : Bool) (mpa : Nat)
    (h : observed_status_safe initial = some 2) :
    (safe_submit_parsed_model initial pollStub submitStub
        tid name pos pc bc bgc ap mpa).2 = [] ∧
    (safe_submit_parsed_model initial pollStub submitStub
        tid name pos pc bc bgc ap mpa).1.success = false ∧
    (safe_submit_parsed_model initial pollStub submitStub
        tid name pos pc bc bgc ap mpa).1.error_code = some "PARSING_FAILED" := by
  have hne := check_has_error_none_of_observed h
  have hcs : py_int_or_none (extract_status_safe initial) = some 2 := by
    rw [observed_safe_eq hne, h]
  simp only [safe_submit_parsed_model, hne, hcs]
  norm_num

theorem safe_submit_block_status2_witness :
    observed_status_safe (.hasData (.dObj (.pvInt 2))) = some 2 ∧
    (safe_submit_parsed_model (.hasData (.dObj (.pvInt 2))) (fun _ => .neitherKey)
        (fun _ => .submitOk 0) "tid" "3D Model" 99 288 Option.none "code"
        true 5).2 = [] ∧
    (safe_submit_parsed_model (.hasData (.dObj (.pvInt 2))) (fun _ => .neitherKey)
        (fun _ => .submitOk 0) "tid" "3D Model" 99 288 Option.none "code"
        true 5).1.error_code = some "PARSING_FAILED" :=
  ⟨rfl,
   (safe_submit_block_status2 (.hasData (.dObj (.pvInt 2))) (fun _ => .neitherKey)
      (fun _ => .submitOk 0) "tid" "3D Model" 99 288 Option.none "code"
      true 5 rfl).1,
   (safe_submit_block_status2 (.hasData (.dObj (.pvInt 2))) (fun _ => .neitherKey)
      (fun _ => .submitOk 0) "tid" "3D Model" 99 288 Option.none "code"
      true 5 rfl).2.2⟩

/-- C6: when the initial status check yields status 3 (ready),
`safe_submit_parsed_model` invokes `submit_parsed_model` exactly once,
with exactly the supplied model metadata (task id, name, pos, categories,
brand good code), and returns its result verbatim in `submit_result`,
wrapped together with the status-check context (`status_check_result`)
that led to it; the wrapper's `success` mirrors the submission outcome. -/
theorem safe_submit_happy_path (initial : CheckResult)
    (pollStub : Nat → CheckResult) (submitStub : SubmitArgs → SubmitResult)
    (tid name : String) (pos pc : Int) (bc : Option (List String))
    (bgc : String) (ap : Bool) (mpa : Nat)
    (h : observed_status_safe initial = some 3) :
    (safe_submit_parsed_model initial pollStub submitStub
        tid name pos pc bc bgc ap mpa).2 = [⟨tid, name, pos, pc, bc, bgc⟩] ∧
    (safe_submit_parsed_model initial pollStub submitStub
        tid name pos pc bc bgc ap mpa).1.submit_result =
      some (submitStub ⟨tid, name, pos, pc, bc, bgc⟩) ∧
    (safe_submit_parsed_model initial pollStub submitStub
        tid name pos pc bc bgc ap mpa).1.status_check_result = some initial ∧
    (safe_submit_parsed_model initial pollStub submitStub
        tid name pos pc bc bgc ap mpa).1.success =
      !submit_has_error (submitStub ⟨tid, name, pos, pc, bc, bgc⟩) := by
  have hne := check_has_error_none_of_observed h
  have hcs : py_int_or_none (extract_status_safe initial) = some 3 := by
    rw [observed_safe_eq hne, h]
  simp only [safe_submit_parsed_model, hne, hcs]
  cases hs : submitStub ⟨tid, name, pos, pc, bc, bgc⟩ <;>
    simp [hs, submit_has_error]

theorem safe_submit_happy_path_witness :
    observed_status_safe (.hasData (.dArr (.pvInt 3))) = some 3 ∧
    (safe_submit_parsed_model (.hasData (.dArr (.pvInt 3))) (fun _ => .neitherKey)
        (fun _ => .submitOk 9) "tid" "Chair" 7 288 (some ["3FO4K6E984C7"]) "bg"
        true 5).2 = [⟨"tid", "Chair", 7, 288, some ["3FO4K6E984C7"], "bg"⟩] ∧
    (safe_submit_parsed_model (.hasData (.dArr (.pvInt 3))) (fun _ => .neitherKey)
        (fun _ => .submitOk 9) "tid" "Chair" 7 288 (some ["3FO4K6E984C7"]) "bg"
        true 5).1.submit_result = some (.submitOk 9) :=
  ⟨rfl,
   (safe_submit_happy_path (.hasData (.dArr (.pvInt 3))) (fun _ => .neitherKey)
      (fun _ => .submitOk 9) "tid" "Chair" 7 288 (some ["3FO4K6E984C7"]) "bg"
      true 5 rfl).1,
   (safe_submit_happy_path (.hasData (.dArr (.pvInt 3))) (fun _ => .neitherKey)
      (fun _ => .submitOk 9) "tid" "Chair" 7 288 (some ["3FO4K6E984C7"]) "bg"
      true 5 rfl).2.1⟩

/-- C7: for every integer status `s`, the three documented payload shapes
`{status: s}`, `{data: {status: s}}` and `{data: [{status: s}, ...]}` all
extract to `s`, through the poller's extraction (lines 323-336 with the
conversion of lines 369-373) and through the orchestrator's extraction
(lines 819-837) alike, and the two extraction pipelines agree on every
input. -/
theorem status_extraction_agreement (s : Int) :
    py_int_or_none (extract_status_poll (.hasStatus (.pvInt s))) = some s ∧
    py_int_or_none (extract_status_poll (.hasData (.dObj (.pvInt s)))) = some s ∧
    py_int_or_none (extract_status_poll (.hasData (.dArr (.pvInt s)))) = some s ∧
    py_int_or_none (extract_status_safe (.hasStatus (.pvInt s))) = some s ∧
    py_int_or_none (extract_status_safe (.hasData (.dObj (.pvInt s)))) = some s ∧
    py_int_or_none (extract_status_safe (.hasData (.dArr (.pvInt s)))) = some s ∧
    ∀ r : CheckResult, observed_status_poll r = observed_status_safe r := by
  refine ⟨rfl, rfl, rfl, rfl, rfl, rfl, ?_⟩
  intro r
  cases r <;> rfl

/-- C8: when the credentials endpoint answers with envelope code
`'100004'` (platform busy) on every attempt, `get_sts_credentials`
performs `max_retries` attempts, sleeping `(attempt + 1) * 2` seconds
between consecutive attempts (2s, 4s, ... — recorded in the second result
component), and after the last attempt returns a structured error result
— not an exception — carrying the error code `'100004'`, the retry
attempt count, and the request parameters used (url, signed params,
filename, timestamp). -/
theorem sts_busy_retry_then_error (md5hex urlquote : String → String)
    (app_key app_secret filename : String) (tstamps : Nat → String)
    (transport : Nat → TransportOutcome) (envs : Nat → Envelope)
    (max_retries : Nat) (h1 : 1 ≤ max_retries)
    (hall : ∀ a, a < max_retries →
      transport a = .ok 200 (envs a) ∧ (envs a).c = some "100004") :
    get_sts_credentials md5hex urlquote app_key app_secret filename tstamps
        transport max_retries =
      (.errorRes
        {error := "API Timeout after all retry attempts - Coohom servers are experiencing high load",
         error_code := .codeStr "100004",
         full_response := some (envs (max_retries - 1)),
         retry_attempts := some max_retries,
         request_data :=
           {url := "https://api.coohom.com/global/commodity/upload/sts",
            params :=
              {appkey := app_key, timestamp := tstamps (max_retries - 1),
               file_name := urlquote filename,
               sign := some (generate_signature md5hex app_secret
                 ⟨app_key, tstamps (max_retries - 1),
                  [("file_name", urlquote filename)]⟩)},
            filename := filename, timestamp := tstamps (max_retries - 1)}},
       (List.range (max_retries - 1)).map (fun a => (a + 1) * 2)) := by
  unfold get_sts_credentials
  rw [if_neg (show ¬ max_retries = 0 by omega)]
  have h := stsLoop_busy md5hex urlquote app_key app_secret filename tstamps
    transport envs max_retries (max_retries - 1) 0 []
    (fun a ha1 ha2 => hall a (by omega))
  refine h.trans ?_
  simp [List.range_eq_range']

theorem sts_busy_retry_then_error_witness :
    get_sts_credentials id id "key" "secret" "model.zip" (fun _ => "t")
        (fun _ => .ok 200 ⟨some "100004", some "busy", .dNone⟩) 3 =
      (.errorRes
        {error := "API Timeout after all retry attempts - Coohom servers are experiencing high load",
         error_code := .codeStr "100004",
         full_response := some ⟨some "100004", some "busy", .dNone⟩,
         retry_attempts := some 3,
         request_data :=
           {url := "https://api.coohom.com/global/commodity/upload/sts",
            params :=
              {appkey := "key", timestamp := "t",
               file_name := "model.zip",
               sign := some (generate_signature id "secret"
                 ⟨"key", "t", [("file_name", "model.zip")]⟩)},
            filename := "model.zip", timestamp := "t"}},
       [2, 4]) :=
  sts_busy_retry_then_error id id "key" "secret" "model.zip" (fun _ => "t")
    (fun _ => .ok 200 ⟨some "100004", some "busy", .dNone⟩)
    (fun _ => ⟨some "100004", some "busy", .dNone⟩) 3
    (by omega) (fun a _ => ⟨rfl, rfl⟩)

/-- C9: `generate_signature` is deterministic — repeated calls on the same
arguments return the same value — and its result depends only on the
secret and the `appkey` and `timestamp` entries of the params dict: any
two params dicts agreeing on those two entries sign identically, whatever
their other entries. -/
theorem generate_signature_deterministic (md5hex : String → String)
    (app_secret : String) (p q : SignParams)
    (hkey : p.appkey = q.appkey) (hts : p.timestamp = q.timestamp) :
    generate_signature md5hex app_secret p =
      generate_signature md5hex app_secret p ∧
    generate_signature md5hex app_secret p =
      generate_signature md5hex app_secret q := by
  unfold generate_signature
  rw [hkey, hts]
  exact ⟨rfl, rfl⟩

theorem generate_signature_deterministic_witness :
    generate_signature id "secret" ⟨"key", "1700000000000", [("file_name", "a.zip")]⟩ =
      generate_signature id "secret" ⟨"key", "1700000000000", [("file_name", "a.zip")]⟩ ∧
    generate_signature id "secret" ⟨"key", "1700000000000", [("file_name", "a.zip")]⟩ =
      generate_signature id "secret" ⟨"key", "1700000000000", [("upload_task_id", "t-1")]⟩ :=
  generate_signature_deterministic id "secret"
    ⟨"key", "1700000000000", [("file_name", "a.zip")]⟩
    ⟨"key", "1700000000000", [("upload_task_id", "t-1")]⟩ rfl rfl

/-- C10: status 3 (ready) is not in the poller's terminal set, so a run
in which every observation is status 3 never terminates early: it
performs all `maxAttempts` checks (the history has one entry per
attempt), sleeps between consecutive checks (`maxAttempts - 1` sleeps),
and returns `success = true`, `status = 3`, `completed_early = false`,
`final_attempt = maxAttempts`. -/
theorem poll_status3_never_early (stub : Nat → CheckResult) (maxA : Nat)
    (h1 : 1 ≤ maxA)
    (hall : ∀ a, 1 ≤ a → a ≤ maxA → observed_status_poll (stub a) = some 3) :
    (3 : Int) ∉ terminal_statuses ∧
    ∃ p, poll_upload_status_until_complete stub maxA = some p ∧
      p.1.success = true ∧ p.1.status = .stInt 3 ∧
      p.1.completed_early = some false ∧ p.1.final_attempt = maxA ∧
      p.1.status_history.length = maxA ∧ p.2 = maxA - 1 := by
  refine ⟨by decide, ?_⟩
  have h := pollLoop_exhausts stub maxA 3 (by decide) (maxA - 1) 1 [] 0
    (fun j hj1 hj2 => hall j hj1 (by omega))
  have hne : ¬ maxA = 0 := by omega
  refine ⟨pollLoop stub maxA (maxA - 1) 1 [] 0,
    by unfold poll_upload_status_until_complete; rw [if_neg hne],
    by rw [h], by rw [h], by rw [h], by rw [h], ?_, ?_⟩
  · rw [h]
    simp only [List.nil_append, List.length_map, List.length_range']
    omega
  · rw [h]
    simp

theorem poll_status3_never_early_witness :
    (3 : Int) ∉ terminal_statuses ∧
    ∃ p, poll_upload_status_until_complete (fun _ => .hasData (.dObj (.pvInt 3))) 4 = some p ∧
      p.1.success = true ∧ p.1.status = .stInt 3 ∧
      p.1.completed_early = some false ∧ p.1.final_attempt = 4 ∧
      p.1.status_history.length = 4 ∧ p.2 = 3 :=
  poll_status3_never_early (fun _ => .hasData (.dObj (.pvInt 3))) 4
    (by omega) (fun _ _ _ => rfl)
